import Mathlib

/-!
Verification development for the gswap-bot repository.

Decimal amounts handled by `BigNumber` in the source are embedded as exact
rationals. Strings that the source only inspects character by character
(wallet addresses, private keys) are embedded as lists of characters.
Fallible operations (`throw` in the source) are embedded as `Except`.
-/

/-- Embeds `resolveGalaAddress` from `src/gswap.ts` (lines 41-47) and
`src/scripts/request-token-swap.ts`: an address containing the namespace
separator is returned unchanged; an address whose lowercase form begins
with `0x` is rewritten to `eth|` followed by the remainder; anything else
is returned unchanged. -/
def resolveGalaAddress (address : List Char) : List Char :=
  if '|' ∈ address then address
  else if (address.take 2).map Char.toLower = ['0', 'x'] then
    'e' :: 't' :: 'h' :: '|' :: address.drop 2
  else address

/-- Embeds the hex-digit test of the regular expression
`^[0-9a-fA-F]{64}$` used by `normalisePrivateKey`. -/
def isHexDigit (c : Char) : Bool :=
  ('0' ≤ c && c ≤ '9') || ('a' ≤ c && c ≤ 'f') || ('A' ≤ c && c ≤ 'F')

/-- Embeds `normalisePrivateKey` from `src/unnamed/part_001` (lines 28-36)
and `src/scripts/request-token-swap.ts` (lines 31-39): a key beginning with
the literal characters `0x` is returned unchanged with no further checks; a
key matching `^[0-9a-fA-F]{64}$` is returned with `0x` prepended; anything
else throws the descriptive error, embedded as `Except.error`. -/
def normalisePrivateKey (privateKey : List Char) : Except String (List Char) :=
  if privateKey.take 2 = ['0', 'x'] then .ok privateKey
  else if privateKey.length == 64 && privateKey.all isHexDigit then
    .ok ('0' :: 'x' :: privateKey)
  else .error "PRIVATE_KEY must be a 64 character hex string optionally prefixed with 0x"

/-- C9: `resolveGalaAddress` is idempotent, and its output either contains
the namespace separator `|` or is the input returned unchanged. -/
theorem resolveGalaAddress_idempotent (a : List Char) :
    resolveGalaAddress (resolveGalaAddress a) = resolveGalaAddress a ∧
    ('|' ∈ resolveGalaAddress a ∨ resolveGalaAddress a = a) := by
  by_cases h1 : '|' ∈ a
  · have hres : resolveGalaAddress a = a := by
      unfold resolveGalaAddress; rw [if_pos h1]
    exact ⟨by rw [hres, hres], Or.inr hres⟩
  · by_cases h2 : (a.take 2).map Char.toLower = ['0', 'x']
    · have hres : resolveGalaAddress a = 'e' :: 't' :: 'h' :: '|' :: a.drop 2 := by
        unfold resolveGalaAddress; rw [if_neg h1, if_pos h2]
      have hmem2 : '|' ∈ ('e' :: 't' :: 'h' :: '|' :: a.drop 2) := by simp
      constructor
      · rw [hres]
        unfold resolveGalaAddress
        rw [if_pos hmem2]
      · exact Or.inl (by rw [hres]; exact hmem2)
    · have hres : resolveGalaAddress a = a := by
        unfold resolveGalaAddress; rw [if_neg h1, if_neg h2]
      exact ⟨by rw [hres, hres], Or.inr hres⟩

/-- C2 counterexample: the input `0xZ` (three characters, so neither 64 hex
characters nor `0x` followed by 64 hex characters, and containing the
non-hex character `Z`) is accepted unchanged by `normalisePrivateKey`
instead of failing: every string starting with the literal `0x` is accepted
with no validation of length or hex shape. -/
theorem normalisePrivateKey_accepts_bad_key :
    normalisePrivateKey ['0', 'x', 'Z'] = .ok ['0', 'x', 'Z'] ∧
    (['0', 'x', 'Z'] : List Char).length ≠ 64 ∧
    (['0', 'x', 'Z'] : List Char).length ≠ 66 ∧
    isHexDigit 'Z' = false :=
  ⟨rfl, by decide, by decide, by decide⟩

/-- C2 (amended): `normalisePrivateKey` returns any input that begins with
the literal characters `0x` unchanged, performing no further validation; an
input that does not begin with `0x` is accepted, with `0x` prepended,
exactly when it consists of 64 hexadecimal characters; every other input
fails with the descriptive error message. -/
theorem normalisePrivateKey_characterisation (k : List Char) :
    (k.take 2 = ['0', 'x'] → normalisePrivateKey k = .ok k) ∧
    (k.take 2 ≠ ['0', 'x'] →
      (normalisePrivateKey k = .ok ('0' :: 'x' :: k) ↔
        (k.length == 64 && k.all isHexDigit) = true)) ∧
    (k.take 2 ≠ ['0', 'x'] → (k.length == 64 && k.all isHexDigit) = false →
      normalisePrivateKey k =
        .error "PRIVATE_KEY must be a 64 character hex string optionally prefixed with 0x") := by
  refine ⟨fun h => by simp [normalisePrivateKey, h], fun h => ?_, fun h hc => ?_⟩
  · cases hc : (k.length == 64 && k.all isHexDigit) with
    | true => simp [normalisePrivateKey, h, hc]
    | false =>
        simp only [normalisePrivateKey, if_neg h, hc]
        simp
  · simp [normalisePrivateKey, h, hc]

/-- Concrete 64-character hex key used to exercise the amended C2 theorem. -/
def pk64 : List Char := List.replicate 64 'a'

/-- C2 witness: the amended theorem applied to a concrete 64-character hex
key without the `0x` marker, which is accepted and prefixed. -/
theorem normalisePrivateKey_characterisation_witness :
    normalisePrivateKey pk64 = .ok ('0' :: 'x' :: pk64) :=
  ((normalisePrivateKey_characterisation pk64).2.1 (by decide)).mpr (by decide)

/-- Token class key of the GALA asset, from `src/gswap.ts` line 13. -/
def GALA_TOKEN : String := "GALA|Unit|none|none"

/-- Token class key of the GWBTC asset, from `src/gswap.ts` line 14. -/
def WBTC_TOKEN : String := "GWBTC|Unit|none|none"

/-- Embeds the `PriceInfo` interface of `src/gswap.ts`. -/
structure PriceInfo where
  wbtcPerGala : ℚ
  galaPerWbtc : ℚ
deriving DecidableEq

/-- Embeds the `UsdPrices` interface of `src/gswap.ts`; `none` embeds the
JavaScript `null` used when a price is unavailable. -/
structure UsdPrices where
  galaUsd : Option ℚ
  wbtcUsd : Option ℚ
deriving DecidableEq

/-- Embeds the `SwapLogEntry` interface of `src/gswap.ts`. The `direction`
field is kept as a raw string because the replay code inspects it as one:
log lines parsed from disk may carry any direction value. Decimal-string
fields are embedded as exact rationals. -/
structure SwapLogEntry where
  timestamp : String
  direction : String
  amountIn : ℚ
  quotedAmountOut : ℚ
  minAmountOut : ℚ
  price : ℚ
  feeTier : ℕ
  slippageBps : ℚ
  txId : Option String
  transactionHash : Option String
  walletAddress : String
deriving DecidableEq

/-- Embeds the `PortfolioPnl` interface of `src/gswap.ts`. -/
structure PortfolioPnl where
  totalGalaIn : ℚ
  totalGalaOut : ℚ
  totalWbtcIn : ℚ
  totalWbtcOut : ℚ
  realizedUsd : ℚ
  unrealizedUsd : ℚ
  netCostUsd : ℚ
deriving DecidableEq

/-- Embeds `createEmptyPnl` from `src/gswap.ts` (lines 88-98). -/
def createEmptyPnl : PortfolioPnl :=
  { totalGalaIn := 0
    totalGalaOut := 0
    totalWbtcIn := 0
    totalWbtcOut := 0
    realizedUsd := 0
    unrealizedUsd := 0
    netCostUsd := 0 }

/-- Running accumulators of the `computePnl` loop in `src/gswap.ts`
(lines 280-283 together with the `result.total*` fields updated in the
loop body). -/
structure PnlAcc where
  runningGala : ℚ
  runningWbtc : ℚ
  realizedUsd : ℚ
  netCostUsd : ℚ
  totalGalaIn : ℚ
  totalGalaOut : ℚ
  totalWbtcIn : ℚ
  totalWbtcOut : ℚ
deriving DecidableEq

/-- Embeds one iteration of the `entries.forEach` loop of `computePnl`
(`src/gswap.ts` lines 285-315). A truthy `usdPrices` field is embedded as
`some`; note that the JavaScript check `if (usdPrices.galaUsd)` tests the
`BigNumber` object, which is truthy even when it holds zero. -/
def pnlStep (usdPrices : UsdPrices) (acc : PnlAcc) (entry : SwapLogEntry) : PnlAcc :=
  if entry.direction = "start" then
    let acc1 := { acc with
      runningGala := acc.runningGala - entry.amountIn
      runningWbtc := acc.runningWbtc + entry.quotedAmountOut
      totalGalaOut := acc.totalGalaOut + entry.amountIn
      totalWbtcIn := acc.totalWbtcIn + entry.quotedAmountOut }
    match usdPrices.galaUsd with
    | some p => { acc1 with
        netCostUsd := acc1.netCostUsd - entry.amountIn * p
        realizedUsd := acc1.realizedUsd + entry.amountIn * p }
    | none => acc1
  else
    let acc1 := { acc with
      runningWbtc := acc.runningWbtc - entry.amountIn
      runningGala := acc.runningGala + entry.quotedAmountOut
      totalWbtcOut := acc.totalWbtcOut + entry.amountIn
      totalGalaIn := acc.totalGalaIn + entry.quotedAmountOut }
    match usdPrices.wbtcUsd with
    | some p => { acc1 with
        netCostUsd := acc1.netCostUsd - entry.amountIn * p
        realizedUsd := acc1.realizedUsd + entry.amountIn * p }
    | none => acc1

/-- Embeds `computePnl` from `src/gswap.ts` (lines 277-327): replay every
entry through `pnlStep`, then value the running holdings at the latest USD
prices and set the unrealized figure to holdings value plus the net cost
accumulator. -/
def computePnl (entries : List SwapLogEntry) (usdPrices : UsdPrices) : PortfolioPnl :=
  let acc := entries.foldl (pnlStep usdPrices) ⟨0, 0, 0, 0, 0, 0, 0, 0⟩
  let galaValue := match usdPrices.galaUsd with
    | some p => acc.runningGala * p
    | none => (0 : ℚ)
  let wbtcValue := match usdPrices.wbtcUsd with
    | some p => acc.runningWbtc * p
    | none => (0 : ℚ)
  let holdingsUsd := galaValue + wbtcValue
  { totalGalaIn := acc.totalGalaIn
    totalGalaOut := acc.totalGalaOut
    totalWbtcIn := acc.totalWbtcIn
    totalWbtcOut := acc.totalWbtcOut
    realizedUsd := acc.realizedUsd
    unrealizedUsd := holdingsUsd + acc.netCostUsd
    netCostUsd := acc.netCostUsd }

/-- Embeds the per-line filter of `readSwapHistory` (`src/gswap.ts` lines
262-272): `none` embeds a line that is blank or fails `JSON.parse`; a
parsed entry is kept only when its direction is `start` or `stop`. -/
def keepLine (line : Option SwapLogEntry) : Option SwapLogEntry :=
  match line with
  | none => none
  | some entry =>
      if entry.direction = "start" ∨ entry.direction = "stop" then some entry else none

/-- Embeds `readSwapHistory` from `src/gswap.ts` (lines 254-275) over the
list of log-file lines. -/
def readSwapHistory (lines : List (Option SwapLogEntry)) : List SwapLogEntry :=
  lines.filterMap keepLine

/-- Log entry of the C1 scenario: direction `start`, `amountIn` 10,
`quotedAmountOut` 0.5. -/
def entryC1 : SwapLogEntry :=
  { timestamp := "2024-01-01T00:00:00.000Z"
    direction := "start"
    amountIn := 10
    quotedAmountOut := 1 / 2
    minAmountOut := 0
    price := 1 / 20
    feeTier := 10000
    slippageBps := 100
    txId := none
    transactionHash := none
    walletAddress := "eth|abc" }

/-- USD prices of the C1 scenario: 1 for GALA, 20 for GWBTC. -/
def usdC1 : UsdPrices := { galaUsd := some 1, wbtcUsd := some 20 }

/-- C1 counterexample: on the stated scenario `computePnl` returns an
unrealized figure of -10, not 0. The replay starts the running holdings at
zero, so after the single `start` entry the running GALA position is -10
(not 0 as the claim assumed) and the holdings value is
(-10)*1 + 0.5*20 = 0, giving unrealized = 0 + (-10) = -10. -/
theorem computePnl_scenario_unrealized_not_zero :
    (computePnl [entryC1] usdC1).unrealizedUsd = -10 ∧ ((-10 : ℚ) ≠ 0) := by
  constructor
  · norm_num [computePnl, pnlStep, entryC1, usdC1]
  · norm_num

/-- C1 (amended): on the stated scenario `computePnl` returns
realizedUsd = 10 and netCostUsd = -10 as claimed, but unrealizedUsd = -10,
where unrealizedUsd is the running holdings (-10 GALA, 0.5 GWBTC) valued
at the latest USD prices plus the net cost accumulator. -/
theorem computePnl_scenario_values :
    (computePnl [entryC1] usdC1).realizedUsd = 10 ∧
    (computePnl [entryC1] usdC1).netCostUsd = -10 ∧
    (computePnl [entryC1] usdC1).unrealizedUsd = -10 := by
  refine ⟨?_, ?_, ?_⟩ <;> norm_num [computePnl, pnlStep, entryC1, usdC1]

/-- C6: a line that fails JSON parsing (embedded as `none`) is skipped by
`readSwapHistory` without aborting the replay: a log of a valid entry, a
malformed line and another valid entry is read, and priced by
`computePnl`, exactly as the log with only the two valid entries. -/
theorem readSwapHistory_skips_malformed (a b : SwapLogEntry) (usdPrices : UsdPrices) :
    readSwapHistory [some a, none, some b] = readSwapHistory [some a, some b] ∧
    computePnl (readSwapHistory [some a, none, some b]) usdPrices =
      computePnl (readSwapHistory [some a, some b]) usdPrices := by
  have h : readSwapHistory [some a, none, some b] = readSwapHistory [some a, some b] := rfl
  exact ⟨h, by rw [h]⟩

/-- Embeds the slippage clamp of `src/gswap.ts` lines 27-28: the raw
basis-point configuration value is clamped into the interval [0, 10000]. -/
def clampSlippage (rawSlippage : ℚ) : ℚ := min (max rawSlippage 0) 10000

/-- Embeds `SLIPPAGE_DECIMAL` of `src/gswap.ts` line 29: the clamped
basis-point value divided by 10000. -/
def slippageDecimalOf (rawSlippage : ℚ) : ℚ := clampSlippage rawSlippage / 10000

/-- Embeds `BigNumber.decimalPlaces(dp, ROUND_FLOOR)`: round toward
negative infinity at `dp` decimal places. -/
def floorToDp (dp : ℕ) (x : ℚ) : ℚ := (⌊x * 10 ^ dp⌋ : ℚ) / 10 ^ dp

/-- Embeds the decimal-precision choice of `src/gswap.ts` line 506: GALA
and GWBTC use 8 decimal places, anything else 18. -/
def decimalsFor (outputSymbol : String) : ℕ :=
  if outputSymbol = "GALA" ∨ outputSymbol = "GWBTC" then 8 else 18

/-- Embeds the `minOut` computation of `src/gswap.ts` lines 503-504: the
quoted output multiplied by `1 - SLIPPAGE_DECIMAL`. -/
def minOutOf (amountOut rawSlippage : ℚ) : ℚ :=
  amountOut * (1 - slippageDecimalOf rawSlippage)

/-- Embeds the `minOutString` computation of `src/gswap.ts` lines 506-507
(also `submitDexBuySwap` in `src/unnamed/part_002` lines 367-371):
`minOut` rounded down at the precision chosen for the output symbol. -/
def minOutString (amountOut rawSlippage : ℚ) (outputSymbol : String) : ℚ :=
  floorToDp (decimalsFor outputSymbol) (minOutOf amountOut rawSlippage)

/-- Specification-side definition, written from the words of the spec for
comparison with the code-side `minOutString`: the quoted output times
`1 - slippageBps/10000`, rounded down to 8 decimal places. -/
def specMinimumAcceptableOutput (quotedOutput slippageBps : ℚ) : ℚ :=
  floorToDp 8 (quotedOutput * (1 - slippageBps / 10000))

/-- C4: for every quoted output and raw slippage configuration, the
submitted minimum output for a GALA or GWBTC output equals the spec
formula `quotedOutput * (1 - slippageBps/10000)` rounded down to 8 decimal
places, where `slippageBps` is the clamped configuration value; the result
is an integer multiple of `10 ^ (-8)` and is the greatest such multiple
not exceeding the exact product. -/
theorem minOut_matches_spec (quotedOutput rawSlippage : ℚ) :
    minOutString quotedOutput rawSlippage "GWBTC" =
      specMinimumAcceptableOutput quotedOutput (clampSlippage rawSlippage) ∧
    minOutString quotedOutput rawSlippage "GALA" =
      specMinimumAcceptableOutput quotedOutput (clampSlippage rawSlippage) ∧
    decimalsFor "GALA" = 8 ∧ decimalsFor "GWBTC" = 8 ∧
    (∃ n : ℤ, minOutString quotedOutput rawSlippage "GWBTC" = (n : ℚ) / 10 ^ 8) ∧
    minOutString quotedOutput rawSlippage "GWBTC" ≤
      quotedOutput * (1 - clampSlippage rawSlippage / 10000) ∧
    quotedOutput * (1 - clampSlippage rawSlippage / 10000) <
      minOutString quotedOutput rawSlippage "GWBTC" + 1 / 10 ^ 8 := by
  have hdecG : decimalsFor "GALA" = 8 := by decide
  have hdecW : decimalsFor "GWBTC" = 8 := by decide
  have hval : minOutString quotedOutput rawSlippage "GWBTC" =
      specMinimumAcceptableOutput quotedOutput (clampSlippage rawSlippage) := by
    unfold minOutString specMinimumAcceptableOutput minOutOf slippageDecimalOf
    rw [hdecW]
  have hvalG : minOutString quotedOutput rawSlippage "GALA" =
      specMinimumAcceptableOutput quotedOutput (clampSlippage rawSlippage) := by
    unfold minOutString specMinimumAcceptableOutput minOutOf slippageDecimalOf
    rw [hdecG]
  set y : ℚ := quotedOutput * (1 - clampSlippage rawSlippage / 10000) with hy
  have hspec : specMinimumAcceptableOutput quotedOutput (clampSlippage rawSlippage) =
      (⌊y * 10 ^ 8⌋ : ℚ) / 10 ^ 8 := rfl
  have hpow : (0 : ℚ) < 10 ^ 8 := by norm_num
  refine ⟨hval, hvalG, hdecG, hdecW, ⟨⌊y * 10 ^ 8⌋, by rw [hval, hspec]⟩, ?_, ?_⟩
  · rw [hval, hspec, div_le_iff₀ hpow]
    exact Int.floor_le _
  · rw [hval, hspec]
    have h2 : y * 10 ^ 8 < (⌊y * 10 ^ 8⌋ : ℚ) + 1 := Int.lt_floor_add_one _
    have hsum : (⌊y * 10 ^ 8⌋ : ℚ) / 10 ^ 8 + 1 / 10 ^ 8 =
        ((⌊y * 10 ^ 8⌋ : ℚ) + 1) / 10 ^ 8 := by ring
    rw [hsum, lt_div_iff₀ hpow]
    exact h2

/-- Embeds the second iteration of the attempts loop of `fetchSpotPrice`
(`src/gswap.ts` lines 205-227) with `tokenIn = WBTC_TOKEN`: the argument is
the outcome of querying the pool in that ordering, a spot value meaning
GALA per GWBTC. A non-positive spot is rejected, and with no attempt left
the function throws. -/
def fetchSpotPriceSnd (attempt2 : Except String ℚ) : Except String PriceInfo :=
  match attempt2 with
  | .ok spot =>
      if 0 < spot then .ok { wbtcPerGala := 1 / spot, galaPerWbtc := spot }
      else .error "Unable to fetch spot price for GALA/WBTC"
  | .error _ => .error "Unable to fetch spot price for GALA/WBTC"

/-- Embeds `fetchSpotPrice` from `src/gswap.ts` (lines 199-228). The first
argument is the outcome of the `tokenIn = GALA_TOKEN` pool query (a spot
value meaning GWBTC per GALA), the second of the reversed ordering. In
each ordering the other rate is the reciprocal of the obtained spot; the
`BigNumber` division at its default 20-decimal precision is idealised as
exact rational division. -/
def fetchSpotPrice (attempt1 attempt2 : Except String ℚ) : Except String PriceInfo :=
  match attempt1 with
  | .ok spot =>
      if 0 < spot then .ok { wbtcPerGala := spot, galaPerWbtc := 1 / spot }
      else fetchSpotPriceSnd attempt2
  | .error _ => fetchSpotPriceSnd attempt2

/-- C7: every `PriceInfo` returned by `fetchSpotPrice` has
`wbtcPerGala * galaPerWbtc = 1` (the tolerance of the claim collapses to
exact equality in the rational idealisation) and both rates strictly
positive. -/
theorem fetchSpotPrice_reciprocal (a1 a2 : Except String ℚ) (info : PriceInfo)
    (h : fetchSpotPrice a1 a2 = .ok info) :
    info.wbtcPerGala * info.galaPerWbtc = 1 ∧
    0 < info.wbtcPerGala ∧ 0 < info.galaPerWbtc := by
  have hsnd : ∀ b : Except String ℚ, fetchSpotPriceSnd b = .ok info →
      info.wbtcPerGala * info.galaPerWbtc = 1 ∧
      0 < info.wbtcPerGala ∧ 0 < info.galaPerWbtc := by
    intro b hb
    match b with
    | .error e => simp [fetchSpotPriceSnd] at hb
    | .ok spot =>
        by_cases hs : 0 < spot
        · rw [fetchSpotPriceSnd, if_pos hs] at hb
          have hinfo : info = { wbtcPerGala := 1 / spot, galaPerWbtc := spot } := by
            injection hb with h1; exact h1.symm
          subst hinfo
          refine ⟨one_div_mul_cancel (ne_of_gt hs), one_div_pos.mpr hs, hs⟩
        · rw [fetchSpotPriceSnd, if_neg hs] at hb
          exact absurd hb (by simp)
  match a1 with
  | .error e => exact hsnd a2 h
  | .ok spot =>
      by_cases hs : 0 < spot
      · rw [fetchSpotPrice, if_pos hs] at h
        have hinfo : info = { wbtcPerGala := spot, galaPerWbtc := 1 / spot } := by
          injection h with h1; exact h1.symm
        subst hinfo
        refine ⟨mul_one_div_cancel (ne_of_gt hs), hs, one_div_pos.mpr hs⟩
      · rw [fetchSpotPrice, if_neg hs] at h
        exact hsnd a2 h

/-- C7 witness: a pool query in the GALA-to-GWBTC ordering returning a
spot of 2 yields the pair (2, 1/2), whose product is 1 with both rates
positive. -/
theorem fetchSpotPrice_reciprocal_witness :
    fetchSpotPrice (.ok 2) (.error "no pool") =
      .ok { wbtcPerGala := 2, galaPerWbtc := 1 / 2 } ∧
    ((2 : ℚ) * (1 / 2) = 1 ∧ (0 : ℚ) < 2 ∧ (0 : ℚ) < 1 / 2) := by
  have hres : fetchSpotPrice (.ok 2) (.error "no pool") =
      .ok { wbtcPerGala := 2, galaPerWbtc := 1 / 2 } := by
    rw [fetchSpotPrice, if_pos (by norm_num : (0 : ℚ) < 2)]
  exact ⟨hres,
    fetchSpotPrice_reciprocal (.ok 2) (.error "no pool")
      { wbtcPerGala := 2, galaPerWbtc := 1 / 2 } hres⟩

/-- Embeds the `SwapLogEntry` object appended by `submitDexBuySwap` in
`src/unnamed/part_003` (lines 393-411): a well-formed entry whose
`direction` field is the string `dexbuy`, with the input amount floored to
8 decimal places, the minimum output from the slippage formula, and the
price from `quoteSwap` (output divided by input). -/
def submitDexBuySwapLogEntry (ts : String) (amountIn amountOut rawSlippage : ℚ)
    (feeTier : ℕ) (txId txHash : Option String) (wallet : String) : SwapLogEntry :=
  { timestamp := ts
    direction := "dexbuy"
    amountIn := floorToDp 8 amountIn
    quotedAmountOut := amountOut
    minAmountOut := minOutString amountOut rawSlippage "GWBTC"
    price := amountOut / amountIn
    feeTier := feeTier
    slippageBps := clampSlippage rawSlippage
    txId := txId
    transactionHash := txHash
    walletAddress := wallet }

/-- C8: `readSwapHistory` discards every parsed entry whose direction is
neither `start` nor `stop`; in particular the `dexbuy` entries written by
`submitDexBuySwap` are excluded from every subsequent PnL replay. -/
theorem readSwapHistory_drops_dexbuy (lines : List (Option SwapLogEntry))
    (e : SwapLogEntry) (hs : e.direction ≠ "start") (ht : e.direction ≠ "stop")
    (ts : String) (amountIn amountOut rawSlippage : ℚ) (feeTier : ℕ)
    (txId txHash : Option String) (wallet : String) (usdPrices : UsdPrices) :
    readSwapHistory (lines ++ [some e]) = readSwapHistory lines ∧
    (submitDexBuySwapLogEntry ts amountIn amountOut rawSlippage feeTier txId txHash
      wallet).direction = "dexbuy" ∧
    readSwapHistory (lines ++
        [some (submitDexBuySwapLogEntry ts amountIn amountOut rawSlippage feeTier txId
          txHash wallet)]) = readSwapHistory lines ∧
    computePnl (readSwapHistory (lines ++
        [some (submitDexBuySwapLogEntry ts amountIn amountOut rawSlippage feeTier txId
          txHash wallet)])) usdPrices = computePnl (readSwapHistory lines) usdPrices := by
  have hgen : ∀ e2 : SwapLogEntry, e2.direction ≠ "start" → e2.direction ≠ "stop" →
      readSwapHistory (lines ++ [some e2]) = readSwapHistory lines := by
    intro e2 hs2 ht2
    unfold readSwapHistory
    rw [List.filterMap_append]
    have hkeep : keepLine (some e2) = none := by
      show (if e2.direction = "start" ∨ e2.direction = "stop" then some e2 else none) = none
      rw [if_neg]
      intro hor
      cases hor with
      | inl h => exact hs2 h
      | inr h => exact ht2 h
    simp [hkeep]
  have hdir : (submitDexBuySwapLogEntry ts amountIn amountOut rawSlippage feeTier txId
      txHash wallet).direction = "dexbuy" := rfl
  have hdrop := hgen (submitDexBuySwapLogEntry ts amountIn amountOut rawSlippage feeTier
    txId txHash wallet) (by rw [hdir]; decide) (by rw [hdir]; decide)
  exact ⟨hgen e hs ht, hdir, hdrop, by rw [hdrop]⟩

/-- C8 witness: the theorem applied to a concrete log of one `start` entry
followed by one appended `dexbuy` entry; the replay sees only the `start`
entry. -/
theorem readSwapHistory_drops_dexbuy_witness :
    (entryC1.direction ≠ "start" ∨ entryC1.direction = "start") ∧
    readSwapHistory ([some entryC1] ++
        [some (submitDexBuySwapLogEntry "t" 1 1 100 10000 none none "eth|abc")]) =
      readSwapHistory [some entryC1] :=
  ⟨Or.inr rfl,
    (readSwapHistory_drops_dexbuy [some entryC1]
      (submitDexBuySwapLogEntry "t" 1 1 100 10000 none none "eth|abc")
      (by decide) (by decide) "t" 1 1 100 10000 none none "eth|abc" usdC1).2.2.1⟩

/-- Embeds the balances object maintained by the dashboard
(`latestBalances` in `src/gswap.ts` / `src/unnamed/part_003`). -/
structure Balances where
  gala : ℚ
  wbtc : ℚ
deriving DecidableEq

/-- Messages assigned to `lastCommandMessage` (and validation messages) by
`handleCommand` in `src/unnamed/part_003`; the rendered strings are
abstracted to constructors carrying their data. -/
inductive Msg where
  | ready
  | manualRefresh
  | unknownCommand (name : String)
  | usageDexbuy
  | invalidDexAmount
  | insufficientGala (available : ℚ)
  | busy
  | noBalance (symbol : String)
deriving DecidableEq

/-- Command lines after the tokenisation and numeric parsing performed at
the top of `handleCommand` (`src/unnamed/part_003` lines 508-516 and the
`new BigNumber(amountArg)` parse): `dexbuy none` is a `dexbuy` line with
no argument, `dexbuy (some none)` one whose argument parses to a
non-finite number, and `dexbuy (some (some q))` one whose argument parses
to the finite value `q`. -/
inductive Cmd where
  | blank
  | refresh
  | start
  | stop
  | dexbuy (arg : Option (Option ℚ))
  | other (name : String)
deriving DecidableEq

/-- Outcome of the synchronous part of `handleCommand`, up to the point
where the handler either returns or proceeds to quote and submit a trade:
`beginSwap` records that exactly one trade submission is initiated. -/
inductive CommandOutcome where
  | noop
  | refreshRequested
  | rejected
  | beginSwap (tokenIn tokenOut : String) (amount : ℚ)
deriving DecidableEq

/-- Embeds the mutable snapshot state of `main` in
`src/unnamed/part_003` (lines 444-456). -/
structure TuiState where
  swapInProgress : Bool
  latestBalances : Balances
  latestPrices : Option PriceInfo
  latestUsdPrices : UsdPrices
  latestPnl : PortfolioPnl
  lastBalanceError : Option String
  lastPriceError : Option String
  lastUsdError : Option String
  lastCommandMessage : Option Msg
deriving DecidableEq

/-- Embeds `handleCommand` from `src/unnamed/part_003` (lines 508-673,
the synchronous prefix ending where the handler either returns or starts
the asynchronous quote-and-submit): `refresh` requests a refresh; a
`dexbuy` line is validated (argument present, finite and positive, within
the GALA balance) before the in-flight guard is consulted; `start` and
`stop` consult the guard first and then the balance of the source asset;
any other word is rejected as unknown. The branches that begin a swap set
`swapInProgress` and report the input amount and token pair submitted. -/
def handleCommand (st : TuiState) (c : Cmd) : TuiState × CommandOutcome :=
  match c with
  | .blank => (st, .noop)
  | .refresh => ({ st with lastCommandMessage := some .manualRefresh }, .refreshRequested)
  | .dexbuy none => ({ st with lastCommandMessage := some .usageDexbuy }, .rejected)
  | .dexbuy (some none) =>
      ({ st with lastCommandMessage := some .invalidDexAmount }, .rejected)
  | .dexbuy (some (some dexAmount)) =>
      if dexAmount ≤ 0 then
        ({ st with lastCommandMessage := some .invalidDexAmount }, .rejected)
      else if st.latestBalances.gala < dexAmount then
        ({ st with lastCommandMessage := some (.insufficientGala st.latestBalances.gala) },
          .rejected)
      else if st.swapInProgress then
        ({ st with lastCommandMessage := some .busy }, .rejected)
      else
        ({ st with swapInProgress := true }, .beginSwap GALA_TOKEN WBTC_TOKEN dexAmount)
  | .other name => ({ st with lastCommandMessage := some (.unknownCommand name) }, .rejected)
  | .start =>
      if st.swapInProgress then
        ({ st with lastCommandMessage := some .busy }, .rejected)
      else if st.latestBalances.gala ≤ 0 then
        ({ st with lastCommandMessage := some (.noBalance "GALA") }, .rejected)
      else
        ({ st with swapInProgress := true },
          .beginSwap GALA_TOKEN WBTC_TOKEN st.latestBalances.gala)
  | .stop =>
      if st.swapInProgress then
        ({ st with lastCommandMessage := some .busy }, .rejected)
      else if st.latestBalances.wbtc ≤ 0 then
        ({ st with lastCommandMessage := some (.noBalance "GWBTC") }, .rejected)
      else
        ({ st with swapInProgress := true },
          .beginSwap WBTC_TOKEN GALA_TOKEN st.latestBalances.wbtc)

/-- Action commands are `start`, `stop` and `dexbuy` lines. -/
def isActionCmd : Cmd → Prop
  | .start => True
  | .stop => True
  | .dexbuy _ => True
  | _ => False

/-- Two states agree on every snapshot field except possibly the
last-command message. -/
def sameSnapshot (s t : TuiState) : Prop :=
  s.swapInProgress = t.swapInProgress ∧
  s.latestBalances = t.latestBalances ∧
  s.latestPrices = t.latestPrices ∧
  s.latestUsdPrices = t.latestUsdPrices ∧
  s.latestPnl = t.latestPnl ∧
  s.lastBalanceError = t.lastBalanceError ∧
  s.lastPriceError = t.lastPriceError ∧
  s.lastUsdError = t.lastUsdError

/-- Outcomes of the four awaited sub-steps of one `refresh()` call
(`src/gswap.ts` lines 368-399): fetching balances, fetching the spot
price, fetching USD prices, and reading the swap history from disk. An
`Except.error` embeds a thrown error reaching the corresponding `catch`
block. -/
structure RefreshOutcomes where
  balancesResult : Except String Balances
  priceResult : Except String PriceInfo
  usdResult : Except String UsdPrices
  historyResult : Except String (List SwapLogEntry)

/-- Embeds `refresh` from `src/gswap.ts` (lines 368-412): the four
sub-steps run in order, each inside its own try/catch; a caught balance,
price or USD failure stores the message in the corresponding error string
and resets the section value, while a caught history-read failure only
resets the PnL to the empty value (the message goes to the process error
stream, not to the snapshot); the PnL replay uses the USD prices produced
by the third step. The returned boolean records that `renderTui` runs
unconditionally at the end. -/
def refresh (st : TuiState) (o : RefreshOutcomes) : TuiState × Bool :=
  let st1 :=
    match o.balancesResult with
    | .ok b => { st with latestBalances := b, lastBalanceError := none }
    | .error e => { st with latestBalances := { gala := 0, wbtc := 0 },
                            lastBalanceError := some e }
  let st2 :=
    match o.priceResult with
    | .ok p => { st1 with latestPrices := some p, lastPriceError := none }
    | .error e => { st1 with latestPrices := none, lastPriceError := some e }
  let st3 :=
    match o.usdResult with
    | .ok u => { st2 with latestUsdPrices := u, lastUsdError := none }
    | .error e => { st2 with latestUsdPrices := { galaUsd := none, wbtcUsd := none },
                             lastUsdError := some e }
  let st4 :=
    match o.historyResult with
    | .ok entries => { st3 with latestPnl := computePnl entries st3.latestUsdPrices }
    | .error _ => { st3 with latestPnl := createEmptyPnl }
  (st4, true)

theorem refresh_rendered (st : TuiState) (o : RefreshOutcomes) :
    (refresh st o).2 = true := by
  obtain ⟨b, p, u, h⟩ := o
  cases b <;> cases p <;> cases u <;> cases h <;> rfl

theorem refresh_balances_proj (st : TuiState) (o : RefreshOutcomes) :
    (refresh st o).1.latestBalances =
      (match o.balancesResult with
        | .ok b => b
        | .error _ => { gala := 0, wbtc := 0 }) ∧
    (refresh st o).1.lastBalanceError =
      (match o.balancesResult with
        | .ok _ => none
        | .error e => some e) := by
  obtain ⟨b, p, u, h⟩ := o
  cases b <;> cases p <;> cases u <;> cases h <;> exact ⟨rfl, rfl⟩

theorem refresh_prices_proj (st : TuiState) (o : RefreshOutcomes) :
    (refresh st o).1.latestPrices =
      (match o.priceResult with
        | .ok p => some p
        | .error _ => none) ∧
    (refresh st o).1.lastPriceError =
      (match o.priceResult with
        | .ok _ => none
        | .error e => some e) := by
  obtain ⟨b, p, u, h⟩ := o
  cases b <;> cases p <;> cases u <;> cases h <;> exact ⟨rfl, rfl⟩

theorem refresh_usd_proj (st : TuiState) (o : RefreshOutcomes) :
    (refresh st o).1.latestUsdPrices =
      (match o.usdResult with
        | .ok u => u
        | .error _ => { galaUsd := none, wbtcUsd := none }) ∧
    (refresh st o).1.lastUsdError =
      (match o.usdResult with
        | .ok _ => none
        | .error e => some e) := by
  obtain ⟨b, p, u, h⟩ := o
  cases b <;> cases p <;> cases u <;> cases h <;> exact ⟨rfl, rfl⟩

theorem refresh_pnl_proj (st : TuiState) (o : RefreshOutcomes) :
    (refresh st o).1.latestPnl =
      (match o.historyResult with
        | .ok entries =>
            computePnl entries
              (match o.usdResult with
                | .ok u => u
                | .error _ => { galaUsd := none, wbtcUsd := none })
        | .error _ => createEmptyPnl) := by
  obtain ⟨b, p, u, h⟩ := o
  cases b <;> cases p <;> cases u <;> cases h <;> rfl

theorem refresh_swapInProgress_proj (st : TuiState) (o : RefreshOutcomes) :
    (refresh st o).1.swapInProgress = st.swapInProgress := by
  obtain ⟨b, p, u, h⟩ := o
  cases b <;> cases p <;> cases u <;> cases h <;> rfl

/-- C5 (amended): in every `refresh()` execution the four sub-steps are
attempted independently: each section of the resulting snapshot is
determined by that section's own outcome alone (so a failure in one does
not prevent the others); failures of the balance, spot-price and USD
fetches are recorded in their per-section error strings; a failure of the
history read resets the PnL to the empty value without a per-section
error string in the snapshot; and the snapshot is rendered
unconditionally after all four attempts. -/
theorem refresh_isolates_failures (st : TuiState) (o : RefreshOutcomes) :
    (refresh st o).2 = true ∧
    (∀ o2 : RefreshOutcomes, o2.balancesResult = o.balancesResult →
      (refresh st o2).1.latestBalances = (refresh st o).1.latestBalances ∧
      (refresh st o2).1.lastBalanceError = (refresh st o).1.lastBalanceError) ∧
    (∀ o2 : RefreshOutcomes, o2.priceResult = o.priceResult →
      (refresh st o2).1.latestPrices = (refresh st o).1.latestPrices ∧
      (refresh st o2).1.lastPriceError = (refresh st o).1.lastPriceError) ∧
    (∀ o2 : RefreshOutcomes, o2.usdResult = o.usdResult →
      (refresh st o2).1.latestUsdPrices = (refresh st o).1.latestUsdPrices ∧
      (refresh st o2).1.lastUsdError = (refresh st o).1.lastUsdError) ∧
    (∀ o2 : RefreshOutcomes, o2.usdResult = o.usdResult →
      o2.historyResult = o.historyResult →
      (refresh st o2).1.latestPnl = (refresh st o).1.latestPnl) ∧
    (∀ e, o.balancesResult = .error e →
      (refresh st o).1.lastBalanceError = some e ∧
      (refresh st o).1.latestBalances = { gala := 0, wbtc := 0 }) ∧
    (∀ e, o.priceResult = .error e →
      (refresh st o).1.lastPriceError = some e ∧ (refresh st o).1.latestPrices = none) ∧
    (∀ e, o.usdResult = .error e →
      (refresh st o).1.lastUsdError = some e ∧
      (refresh st o).1.latestUsdPrices = { galaUsd := none, wbtcUsd := none }) ∧
    (∀ e, o.historyResult = .error e →
      (refresh st o).1.latestPnl = createEmptyPnl) := by
  refine ⟨refresh_rendered st o, ?_, ?_, ?_, ?_, ?_, ?_, ?_, ?_⟩
  · intro o2 h2
    rw [(refresh_balances_proj st o2).1, (refresh_balances_proj st o).1,
      (refresh_balances_proj st o2).2, (refresh_balances_proj st o).2, h2]
    exact ⟨rfl, rfl⟩
  · intro o2 h2
    rw [(refresh_prices_proj st o2).1, (refresh_prices_proj st o).1,
      (refresh_prices_proj st o2).2, (refresh_prices_proj st o).2, h2]
    exact ⟨rfl, rfl⟩
  · intro o2 h2
    rw [(refresh_usd_proj st o2).1, (refresh_usd_proj st o).1,
      (refresh_usd_proj st o2).2, (refresh_usd_proj st o).2, h2]
    exact ⟨rfl, rfl⟩
  · intro o2 h2 h3
    rw [refresh_pnl_proj st o2, refresh_pnl_proj st o, h2, h3]
  · intro e he
    rw [(refresh_balances_proj st o).1, (refresh_balances_proj st o).2, he]
    exact ⟨rfl, rfl⟩
  · intro e he
    rw [(refresh_prices_proj st o).1, (refresh_prices_proj st o).2, he]
    exact ⟨rfl, rfl⟩
  · intro e he
    rw [(refresh_usd_proj st o).1, (refresh_usd_proj st o).2, he]
    exact ⟨rfl, rfl⟩
  · intro e he
    rw [refresh_pnl_proj st o, he]

/-- Snapshot state used to exercise the refresh and command theorems:
idle, with a GALA balance of 5. -/
def stIdle : TuiState :=
  { swapInProgress := false
    latestBalances := { gala := 5, wbtc := 0 }
    latestPrices := none
    latestUsdPrices := { galaUsd := none, wbtcUsd := none }
    latestPnl := createEmptyPnl
    lastBalanceError := none
    lastPriceError := none
    lastUsdError := none
    lastCommandMessage := some .ready }

/-- Refresh outcomes in which only the balance fetch fails. -/
def oBalFail : RefreshOutcomes :=
  { balancesResult := .error "network down"
    priceResult := .ok { wbtcPerGala := 1, galaPerWbtc := 1 }
    usdResult := .ok { galaUsd := some 1, wbtcUsd := some 2 }
    historyResult := .ok [] }

/-- C5 witness: the theorem applied to a refresh in which only the
balance fetch fails: the failure is recorded in the balance error string,
the USD section still succeeds, and the snapshot is rendered. -/
theorem refresh_isolates_failures_witness :
    oBalFail.balancesResult = .error "network down" ∧
    ((refresh stIdle oBalFail).1.lastBalanceError = some "network down" ∧
      (refresh stIdle oBalFail).1.latestBalances = { gala := 0, wbtc := 0 }) ∧
    (refresh stIdle oBalFail).2 = true :=
  ⟨rfl,
    (refresh_isolates_failures stIdle oBalFail).2.2.2.2.2.1 "network down" rfl,
    (refresh_isolates_failures stIdle oBalFail).1⟩

/-- Refresh outcomes in which only the history read fails. -/
def oPnlFail : RefreshOutcomes :=
  { balancesResult := .ok { gala := 3, wbtc := 1 }
    priceResult := .ok { wbtcPerGala := 1, galaPerWbtc := 1 }
    usdResult := .ok { galaUsd := some 1, wbtcUsd := some 2 }
    historyResult := .error "disk failure" }

/-- Refresh outcomes identical to `oPnlFail` except that the history read
succeeds with an empty log. -/
def oAllOk : RefreshOutcomes :=
  { balancesResult := .ok { gala := 3, wbtc := 1 }
    priceResult := .ok { wbtcPerGala := 1, galaPerWbtc := 1 }
    usdResult := .ok { galaUsd := some 1, wbtcUsd := some 2 }
    historyResult := .ok [] }

/-- C5 counterexample: a history-read failure is not recorded as a
per-section error string: the snapshot produced when the history read
throws is identical to the snapshot produced when it succeeds on an empty
log, so no section error string of the snapshot records the failure,
contrary to the claim that each of the four sub-steps records its error
as that section's error string. -/
theorem refresh_pnl_failure_not_recorded :
    oPnlFail.historyResult = .error "disk failure" ∧
    oAllOk.historyResult = .ok ([] : List SwapLogEntry) ∧
    refresh stIdle oPnlFail = refresh stIdle oAllOk ∧
    (refresh stIdle oPnlFail).1.lastBalanceError = none ∧
    (refresh stIdle oPnlFail).1.lastPriceError = none ∧
    (refresh stIdle oPnlFail).1.lastUsdError = none := by
  have hpnl : computePnl ([] : List SwapLogEntry) { galaUsd := some 1, wbtcUsd := some 2 } =
      createEmptyPnl := by
    norm_num [computePnl, createEmptyPnl]
  refine ⟨rfl, rfl, ?_, rfl, rfl, rfl⟩
  show ((_ : TuiState), true) = ((_ : TuiState), true)
  rw [Prod.mk.injEq]
  refine ⟨?_, rfl⟩
  show { stIdle with
      latestBalances := { gala := 3, wbtc := 1 }
      lastBalanceError := none
      latestPrices := some { wbtcPerGala := 1, galaPerWbtc := 1 }
      lastPriceError := none
      latestUsdPrices := { galaUsd := some 1, wbtcUsd := some 2 }
      lastUsdError := none
      latestPnl := createEmptyPnl } =
    { stIdle with
      latestBalances := { gala := 3, wbtc := 1 }
      lastBalanceError := none
      latestPrices := some { wbtcPerGala := 1, galaPerWbtc := 1 }
      lastPriceError := none
      latestUsdPrices := { galaUsd := some 1, wbtcUsd := some 2 }
      lastUsdError := none
      latestPnl := computePnl ([] : List SwapLogEntry)
        { galaUsd := some 1, wbtcUsd := some 2 } }
  rw [hpnl]

/-- C10: whenever the balance fetch inside `refresh()` fails, the
in-memory balances are reset to zero for both assets, and every
balance-dependent action command issued before the next successful fetch
observes zero available balance: `start` and `stop` are rejected with the
no-balance message, and `dexbuy` of any positive amount is rejected as
exceeding the (zero) available GALA. -/
theorem refresh_balance_failure_zeroes (st : TuiState) (o : RefreshOutcomes) (e : String)
    (hb : o.balancesResult = .error e) (hidle : st.swapInProgress = false) :
    (refresh st o).1.latestBalances = { gala := 0, wbtc := 0 } ∧
    (handleCommand (refresh st o).1 .start).2 = CommandOutcome.rejected ∧
    (handleCommand (refresh st o).1 .start).1.lastCommandMessage =
      some (Msg.noBalance "GALA") ∧
    (handleCommand (refresh st o).1 .stop).2 = CommandOutcome.rejected ∧
    (handleCommand (refresh st o).1 .stop).1.lastCommandMessage =
      some (Msg.noBalance "GWBTC") ∧
    (∀ q : ℚ, 0 < q →
      (handleCommand (refresh st o).1 (.dexbuy (some (some q)))).2 =
        CommandOutcome.rejected ∧
      (handleCommand (refresh st o).1 (.dexbuy (some (some q)))).1.lastCommandMessage =
        some (Msg.insufficientGala 0)) := by
  have hbal : (refresh st o).1.latestBalances = { gala := 0, wbtc := 0 } := by
    rw [(refresh_balances_proj st o).1, hb]
  have hsw : ¬((refresh st o).1.swapInProgress = true) := by
    rw [refresh_swapInProgress_proj, hidle]
    exact Bool.false_ne_true
  have hgala : (refresh st o).1.latestBalances.gala = 0 := by rw [hbal]
  have hwbtc : (refresh st o).1.latestBalances.wbtc = 0 := by rw [hbal]
  have hstart : handleCommand (refresh st o).1 .start =
      ({ (refresh st o).1 with lastCommandMessage := some (Msg.noBalance "GALA") },
        .rejected) := by
    simp only [handleCommand]
    rw [if_neg hsw, if_pos (le_of_eq hgala)]
  have hstop : handleCommand (refresh st o).1 .stop =
      ({ (refresh st o).1 with lastCommandMessage := some (Msg.noBalance "GWBTC") },
        .rejected) := by
    simp only [handleCommand]
    rw [if_neg hsw, if_pos (le_of_eq hwbtc)]
  refine ⟨hbal, by rw [hstart], by rw [hstart], by rw [hstop], by rw [hstop], ?_⟩
  intro q hq
  have hnle : ¬(q ≤ 0) := not_le.mpr hq
  have hlt : (refresh st o).1.latestBalances.gala < q := by rw [hgala]; exact hq
  constructor
  · simp only [handleCommand]
    rw [if_neg hnle, if_pos hlt]
  · simp only [handleCommand]
    rw [if_neg hnle, if_pos hlt, hgala]

/-- C10 witness: the theorem applied to the idle snapshot and a refresh in
which the balance fetch fails. -/
theorem refresh_balance_failure_zeroes_witness :
    oBalFail.balancesResult = .error "network down" ∧
    stIdle.swapInProgress = false ∧
    (refresh stIdle oBalFail).1.latestBalances = { gala := 0, wbtc := 0 } ∧
    (handleCommand (refresh stIdle oBalFail).1 .start).1.lastCommandMessage =
      some (Msg.noBalance "GALA") :=
  ⟨rfl, rfl,
    (refresh_balance_failure_zeroes stIdle oBalFail "network down" rfl rfl).1,
    (refresh_balance_failure_zeroes stIdle oBalFail "network down" rfl rfl).2.2.1⟩

theorem handleCommand_beginSwap_sets_inflight (st : TuiState) (c : Cmd)
    (tIn tOut : String) (amt : ℚ)
    (h : (handleCommand st c).2 = .beginSwap tIn tOut amt) :
    (handleCommand st c).1.swapInProgress = true := by
  cases c with
  | blank => simp [handleCommand] at h
  | refresh => simp [handleCommand] at h
  | other name => simp [handleCommand] at h
  | start =>
      by_cases h1 : st.swapInProgress = true
      · simp [handleCommand, h1] at h
      · by_cases h2 : st.latestBalances.gala ≤ 0
        · simp [handleCommand, h1, h2] at h
        · simp [handleCommand, h1, h2]
  | stop =>
      by_cases h1 : st.swapInProgress = true
      · simp [handleCommand, h1] at h
      · by_cases h2 : st.latestBalances.wbtc ≤ 0
        · simp [handleCommand, h1, h2] at h
        · simp [handleCommand, h1, h2]
  | dexbuy arg =>
      match arg with
      | none => simp [handleCommand] at h
      | some none => simp [handleCommand] at h
      | some (some q) =>
          by_cases h1 : q ≤ 0
          · simp [handleCommand, h1] at h
          · by_cases h2 : st.latestBalances.gala < q
            · simp [handleCommand, h1, h2] at h
            · by_cases h3 : st.swapInProgress = true
              · simp [handleCommand, h1, h2, h3] at h
              · simp [handleCommand, h1, h2, h3]

theorem handleCommand_guard (st : TuiState) (c : Cmd)
    (hin : st.swapInProgress = true) (hact : isActionCmd c) :
    (handleCommand st c).2 = CommandOutcome.rejected ∧
    sameSnapshot (handleCommand st c).1 st ∧
    ((c = .start ∨ c = .stop) →
      (handleCommand st c).1.lastCommandMessage = some Msg.busy) ∧
    (∀ q : ℚ, c = .dexbuy (some (some q)) → 0 < q → q ≤ st.latestBalances.gala →
      (handleCommand st c).1.lastCommandMessage = some Msg.busy) := by
  cases c with
  | blank => exact False.elim hact
  | refresh => exact False.elim hact
  | other name => exact False.elim hact
  | start =>
      have hres : handleCommand st .start =
          ({ st with lastCommandMessage := some Msg.busy }, .rejected) := by
        simp only [handleCommand]
        rw [if_pos hin]
      refine ⟨by rw [hres], ?_, fun _ => by rw [hres], fun q hq => by simp at hq⟩
      rw [hres]
      exact ⟨rfl, rfl, rfl, rfl, rfl, rfl, rfl, rfl⟩
  | stop =>
      have hres : handleCommand st .stop =
          ({ st with lastCommandMessage := some Msg.busy }, .rejected) := by
        simp only [handleCommand]
        rw [if_pos hin]
      refine ⟨by rw [hres], ?_, fun _ => by rw [hres], fun q hq => by simp at hq⟩
      rw [hres]
      exact ⟨rfl, rfl, rfl, rfl, rfl, rfl, rfl, rfl⟩
  | dexbuy arg =>
      match arg with
      | none =>
          refine ⟨rfl, ⟨rfl, rfl, rfl, rfl, rfl, rfl, rfl, rfl⟩, fun hor => ?_,
            fun q hq => by simp at hq⟩
          cases hor with
          | inl h => simp at h
          | inr h => simp at h
      | some none =>
          refine ⟨rfl, ⟨rfl, rfl, rfl, rfl, rfl, rfl, rfl, rfl⟩, fun hor => ?_,
            fun q hq => by simp at hq⟩
          cases hor with
          | inl h => simp at h
          | inr h => simp at h
      | some (some q0) =>
          have hor3 : ∀ p : Prop,
              ((Cmd.dexbuy (some (some q0)) = .start ∨
                Cmd.dexbuy (some (some q0)) = .stop) → p) := by
            intro p hor
            cases hor with
            | inl h => simp at h
            | inr h => simp at h
          by_cases h1 : q0 ≤ 0
          · have hres : handleCommand st (.dexbuy (some (some q0))) =
                ({ st with lastCommandMessage := some Msg.invalidDexAmount },
                  .rejected) := by
              simp only [handleCommand]
              rw [if_pos h1]
            refine ⟨by rw [hres], ?_, hor3 _, ?_⟩
            · rw [hres]
              exact ⟨rfl, rfl, rfl, rfl, rfl, rfl, rfl, rfl⟩
            · intro q hq hpos hle
              simp only [Cmd.dexbuy.injEq, Option.some.injEq] at hq
              subst hq
              exact absurd hpos (not_lt.mpr h1)
          · by_cases h2 : st.latestBalances.gala < q0
            · have hres : handleCommand st (.dexbuy (some (some q0))) =
                  ({ st with lastCommandMessage := some (Msg.insufficientGala st.latestBalances.gala) },
                    .rejected) := by
                simp only [handleCommand]
                rw [if_neg h1, if_pos h2]
              refine ⟨by rw [hres], ?_, hor3 _, ?_⟩
              · rw [hres]
                exact ⟨rfl, rfl, rfl, rfl, rfl, rfl, rfl, rfl⟩
              · intro q hq hpos hle
                simp only [Cmd.dexbuy.injEq, Option.some.injEq] at hq
                subst hq
                exact absurd h2 (not_lt.mpr hle)
            · have hres : handleCommand st (.dexbuy (some (some q0))) =
                  ({ st with lastCommandMessage := some Msg.busy }, .rejected) := by
                simp only [handleCommand]
                rw [if_neg h1, if_neg h2, if_pos hin]
              refine ⟨by rw [hres], ?_, hor3 _, fun q hq hpos hle => by rw [hres]⟩
              rw [hres]
              exact ⟨rfl, rfl, rfl, rfl, rfl, rfl, rfl, rfl⟩

/-- C3 (amended): whenever an action command begins a trade submission,
the handler state records the swap as in flight, and every further action
command arriving while it is in flight performs no trade submission: it is
rejected, leaves every snapshot field except the last-command message
unchanged, and receives the busy message when it is `start`, `stop`, or a
`dexbuy` whose amount passes validation (positive and within the GALA
balance); a `dexbuy` failing validation is rejected with that validation
message instead. Hence at most one trade action is in flight at a time and
a two-command burst performs exactly one submission. -/
theorem handleCommand_single_submission (st : TuiState) (c1 c2 : Cmd)
    (tIn tOut : String) (amt : ℚ)
    (h1 : (handleCommand st c1).2 = .beginSwap tIn tOut amt)
    (hact : isActionCmd c2) :
    (handleCommand st c1).1.swapInProgress = true ∧
    (handleCommand (handleCommand st c1).1 c2).2 = CommandOutcome.rejected ∧
    sameSnapshot (handleCommand (handleCommand st c1).1 c2).1 (handleCommand st c1).1 ∧
    ((c2 = .start ∨ c2 = .stop) →
      (handleCommand (handleCommand st c1).1 c2).1.lastCommandMessage =
        some Msg.busy) ∧
    (∀ q : ℚ, c2 = .dexbuy (some (some q)) → 0 < q →
      q ≤ (handleCommand st c1).1.latestBalances.gala →
      (handleCommand (handleCommand st c1).1 c2).1.lastCommandMessage =
        some Msg.busy) := by
  have hin := handleCommand_beginSwap_sets_inflight st c1 tIn tOut amt h1
  have hg := handleCommand_guard (handleCommand st c1).1 c2 hin hact
  exact ⟨hin, hg.1, hg.2.1, hg.2.2.1, hg.2.2.2⟩

/-- C3 witness: from the idle snapshot with 5 GALA, `start` begins exactly
one submission, and a `stop` arriving while it is in flight is rejected
with the busy message. -/
theorem handleCommand_single_submission_witness :
    (handleCommand stIdle .start).2 = .beginSwap GALA_TOKEN WBTC_TOKEN 5 ∧
    (handleCommand (handleCommand stIdle .start).1 .stop).2 = CommandOutcome.rejected ∧
    (handleCommand (handleCommand stIdle .start).1 .stop).1.lastCommandMessage =
      some Msg.busy :=
  ⟨by decide,
    (handleCommand_single_submission stIdle .start .stop GALA_TOKEN WBTC_TOKEN 5
      (by decide) trivial).2.1,
    (handleCommand_single_submission stIdle .start .stop GALA_TOKEN WBTC_TOKEN 5
      (by decide) trivial).2.2.2.1 (Or.inr rfl)⟩

/-- Snapshot with a swap in flight and zero balances, used to exhibit the
C3 counterexample. -/
def stBusy : TuiState :=
  { swapInProgress := true
    latestBalances := { gala := 0, wbtc := 0 }
    latestPrices := none
    latestUsdPrices := { galaUsd := none, wbtcUsd := none }
    latestPnl := createEmptyPnl
    lastBalanceError := none
    lastPriceError := none
    lastUsdError := none
    lastCommandMessage := some .ready }

/-- C3 counterexample: with a swap in flight, the action command
`dexbuy 5` is rejected with the insufficient-balance message, not the
busy message, because the `dexbuy` handler validates the amount before
consulting the in-flight guard; so the claim that the second action
command always receives the busy-rejection message is false. No trade is
submitted either way. -/
theorem handleCommand_busy_message_counterexample :
    stBusy.swapInProgress = true ∧
    (handleCommand stBusy (.dexbuy (some (some 5)))).2 = CommandOutcome.rejected ∧
    (handleCommand stBusy (.dexbuy (some (some 5)))).1.lastCommandMessage =
      some (Msg.insufficientGala 0) ∧
    some (Msg.insufficientGala 0) ≠ some Msg.busy :=
  ⟨rfl, by decide, by decide, by decide⟩
